import Mathlib

/-!
Verification development for the pointblank data-validation engine.

The source is embedded shallowly:

* Cell values of a table column are `Option Int` (or `Option String` for the
  regex check); `none` is the missing value (null).
* The local backend evaluates narwhals expressions with the polars
  three-valued semantics: comparisons propagate null, boolean `&` and `|`
  use Kleene logic, `is_null` is total, literals are never null.
  These are modelled by `optCmp`, `kand`, `kor`, `knot`, `whenThenOtherwise`.
* A table column is a `List` of cells; each `Interrogator` method of
  src/pointblank/_interrogation.py becomes a row function mapped over the
  column.  The Python methods dispatch on the runtime type of the operand
  (literal vs `Column`); the embedding splits such a method into a `...Lit`
  and a `...Col` definition, each following the corresponding branch of the
  source text line by line.
* Fallible Python code (raising) becomes `Except String`.
-/

/-- Kleene conjunction of nullable booleans: the semantics polars gives to
`&` on boolean columns (false dominates null). -/
def kand : Option Bool → Option Bool → Option Bool
  | some false, _ => some false
  | _, some false => some false
  | some true, some true => some true
  | _, _ => none

/-- Kleene disjunction of nullable booleans: the semantics polars gives to
`|` on boolean columns (true dominates null). -/
def kor : Option Bool → Option Bool → Option Bool
  | some true, _ => some true
  | _, some true => some true
  | some false, some false => some false
  | _, _ => none

/-- Kleene negation of a nullable boolean (`~` in polars): null stays null. -/
def knot : Option Bool → Option Bool :=
  Option.map (fun b => !b)

/-- polars `when(c).then(t).otherwise(e)` where, in every use made by the
source, the condition is built from `is_null` and is therefore never null. -/
def whenThenOtherwise (c t e : Option Bool) : Option Bool :=
  match c with
  | some true => t
  | some false => e
  | none => none

/-- A comparison between nullable values: null on either side propagates
(the polars semantics of `<`, `>`, `==`, `!=`, `<=`, `>=` on columns). -/
def optCmp (f : Int → Int → Bool) : Option Int → Option Int → Option Bool
  | some a, some b => some (f a b)
  | _, _ => none

def optGt : Option Int → Option Int → Option Bool := optCmp (fun a b => decide (a > b))
def optLt : Option Int → Option Int → Option Bool := optCmp (fun a b => decide (a < b))
def optGe : Option Int → Option Int → Option Bool := optCmp (fun a b => decide (a ≥ b))
def optLe : Option Int → Option Int → Option Bool := optCmp (fun a b => decide (a ≤ b))
def optNe : Option Int → Option Int → Option Bool := optCmp (fun a b => decide (a ≠ b))

namespace Interrogator

/-- Row semantics of `Interrogator.gt`, local backend, literal operand
(src/pointblank/_interrogation.py lines 114-133): the row value of the
added `pb_is_good_` column.
`pb_is_good_1 = col.is_null() & na_pass`, `pb_is_good_2 = lit False`
(literal operand branch), `pb_is_good_3 = col > compare`, and
`pb_is_good_ = pb_is_good_1 | pb_is_good_2 | pb_is_good_3`.
No null-coercion is applied to `pb_is_good_3`. -/
def gtLitRow (v : Option Int) (compare : Int) (naPass : Bool) : Option Bool :=
  let g1 := kand (some v.isNone) (some naPass)
  let g2 := some false
  let g3 := optGt v (some compare)
  kor (kor g1 g2) g3

/-- Method `Interrogator.gt` over a whole local-backend column, literal operand. -/
def gtLit (t : List (Option Int)) (compare : Int) (naPass : Bool) : List (Option Bool) :=
  t.map (fun v => gtLitRow v compare naPass)

/-- Row semantics of `Interrogator.gt`, local backend, column operand
(src/pointblank/_interrogation.py lines 114-133, `Column` branch):
`pb_is_good_1 = col.is_null() & na_pass`,
`pb_is_good_2 = compare_col.is_null() & na_pass`,
`pb_is_good_3 = col > compare_col`, disjunction of the three. -/
def gtColRow (v w : Option Int) (naPass : Bool) : Option Bool :=
  let g1 := kand (some v.isNone) (some naPass)
  let g2 := kand (some w.isNone) (some naPass)
  let g3 := optGt v w
  kor (kor g1 g2) g3

/-- Method `Interrogator.gt` over a whole local-backend table, column operand;
rows pair the target-column and comparison-column values. -/
def gtCol (rows : List (Option Int × Option Int)) (naPass : Bool) : List (Option Bool) :=
  rows.map (fun r => gtColRow r.1 r.2 naPass)

/-- Helper `_column_has_null_values` (src/pointblank/_interrogation.py lines
1549-1555) applied to the first component of the row pairs. -/
def refColHasNulls (rows : List (Option Int × Option Int)) : Bool :=
  rows.any (fun r => r.1.isNone)

/-- Helper `_column_has_null_values` applied to the second (comparison) column. -/
def cmpColHasNulls (rows : List (Option Int × Option Int)) : Bool :=
  rows.any (fun r => r.2.isNone)

/-- Row semantics of `Interrogator.ne`, local backend, column operand, CASE 1
(src/pointblank/_interrogation.py lines 368-410, polars path):
`pb_is_good_1 = col.is_null()`, `pb_is_good_2 = col != compare_col`;
if not na_pass, `pb_is_good_2 &= ~pb_is_good_1`; then (polars) nulls in
`pb_is_good_2` are replaced by False and, if na_pass, `pb_is_good_2 |=
pb_is_good_1`. -/
def neColCase1Row (v w : Option Int) (naPass : Bool) : Option Bool :=
  let g1 : Option Bool := some v.isNone
  let g2 := optNe v w
  let g2a := if naPass then g2 else kand g2 (knot g1)
  let g2b := whenThenOtherwise (some g2a.isNone) (some false) g2a
  if naPass then kor g1 g2b else g2b

/-- Row semantics of `Interrogator.ne`, local backend, column operand, CASE 2
(src/pointblank/_interrogation.py lines 413-446, polars path):
`pb_is_good_1 = col != compare_col`, `pb_is_good_2 = compare_col.is_null()`;
if not na_pass, `pb_is_good_1 &= ~pb_is_good_2`; if polars and na_pass,
`pb_is_good_1 |= pb_is_good_2`. -/
def neColCase2Row (v w : Option Int) (naPass : Bool) : Option Bool :=
  let g1 := optNe v w
  let g2 : Option Bool := some w.isNone
  let g1a := if naPass then g1 else kand g1 (knot g2)
  if naPass then kor g1a g2 else g1a

/-- Row semantics of `Interrogator.ne`, local backend, column operand, CASE 3
(src/pointblank/_interrogation.py lines 450-481, polars path):
`pb_is_good_1 = col.is_null()`, `pb_is_good_2 = compare_col.is_null()`,
`pb_is_good_3 = col != compare_col`; if not na_pass,
`pb_is_good_3 = pb_is_good_3 & ~pb_is_good_1 & ~pb_is_good_2`; if polars
and na_pass, `pb_is_good_3 = when(pb_is_good_1 | pb_is_good_2)
.then(True).otherwise(False)` - note the otherwise branch discards the
comparison result. -/
def neColCase3Row (v w : Option Int) (naPass : Bool) : Option Bool :=
  let g1 : Option Bool := some v.isNone
  let g2 : Option Bool := some w.isNone
  let g3 := optNe v w
  if naPass then whenThenOtherwise (kor g1 g2) (some true) (some false)
  else kand (kand g3 (knot g1)) (knot g2)

/-- Method `Interrogator.ne`, local backend (polars), column operand
(src/pointblank/_interrogation.py lines 330-481): the method first asks
`_column_has_null_values` about both columns and dispatches to the direct
comparison or to one of the three null-handling cases. -/
def neCol (rows : List (Option Int × Option Int)) (naPass : Bool) : List (Option Bool) :=
  let refNull := refColHasNulls rows
  let cmpNull := cmpColHasNulls rows
  if !refNull && !cmpNull then
    rows.map (fun r => optNe r.1 r.2)
  else if refNull && !cmpNull then
    rows.map (fun r => neColCase1Row r.1 r.2 naPass)
  else if !refNull && cmpNull then
    rows.map (fun r => neColCase2Row r.1 r.2 naPass)
  else
    rows.map (fun r => neColCase3Row r.1 r.2 naPass)

/-- Row semantics of `Interrogator.between`, local backend, literal bounds
(src/pointblank/_interrogation.py lines 728-775):
`pb_is_good_1 = col.is_null()`, `pb_is_good_2 = pb_is_good_3 = lit False`
(literal-bound branches), `pb_is_good_4 = lit na_pass`,
`pb_is_good_5 = col >= low` (or `>` when not inclusive),
`pb_is_good_6 = col <= high` (or `<`), and
`pb_is_good_ = ((g1 | g2 | g3) & g4) | (g5 & g6)`.
No null-coercion is applied to `pb_is_good_5`/`pb_is_good_6`. -/
def betweenLitRow (v : Option Int) (low high : Int) (incLow incHigh naPass : Bool) :
    Option Bool :=
  let g1 : Option Bool := some v.isNone
  let g2 : Option Bool := some false
  let g3 : Option Bool := some false
  let g4 : Option Bool := some naPass
  let g5 := if incLow then optGe v (some low) else optGt v (some low)
  let g6 := if incHigh then optLe v (some high) else optLt v (some high)
  kor (kand (kor (kor g1 g2) g3) g4) (kand g5 g6)

/-- Method `Interrogator.between` over a whole local-backend column, literal bounds. -/
def betweenLit (t : List (Option Int)) (low high : Int) (incLow incHigh naPass : Bool) :
    List (Option Bool) :=
  t.map (fun v => betweenLitRow v low high incLow incHigh naPass)

/-- Row semantics of `Interrogator.outside`, local backend, literal bounds
(src/pointblank/_interrogation.py lines 888-947):
`pb_is_good_1 = col.is_null()`, `pb_is_good_2 = pb_is_good_3 = lit False`,
`pb_is_good_4 = lit na_pass`, `pb_is_good_5 = col < low` (or `<=` when the
low bound is not inclusive), `pb_is_good_6 = col > high` (or `>=`); nulls
in `pb_is_good_5`/`pb_is_good_6` are replaced by False, and
`pb_is_good_ = ((g1 | g2 | g3) & g4) | ((g5 & ~g3) | (g6 & ~g2))`. -/
def outsideLitRow (v : Option Int) (low high : Int) (incLow incHigh naPass : Bool) :
    Option Bool :=
  let g1 : Option Bool := some v.isNone
  let g2 : Option Bool := some false
  let g3 : Option Bool := some false
  let g4 : Option Bool := some naPass
  let g5 := if incLow then optLt v (some low) else optLe v (some low)
  let g6 := if incHigh then optGt v (some high) else optGe v (some high)
  let g5a := whenThenOtherwise (some g5.isNone) (some false) g5
  let g6a := whenThenOtherwise (some g6.isNone) (some false) g6
  kor (kand (kor (kor g1 g2) g3) g4) (kor (kand g5a (knot g3)) (kand g6a (knot g2)))

/-- Method `Interrogator.outside` over a whole local-backend column, literal bounds. -/
def outsideLit (t : List (Option Int)) (low high : Int) (incLow incHigh naPass : Bool) :
    List (Option Bool) :=
  t.map (fun v => outsideLitRow v low high incLow incHigh naPass)

/-- Row semantics of `Interrogator.isin`, local backend
(src/pointblank/_interrogation.py lines 957-961): the polars `is_in`
expression - null input gives null, a non-null input gives set membership.
The method takes no na_pass flag. -/
def isinRow (v : Option Int) (values : List Int) : Option Bool :=
  v.map (fun x => decide (x ∈ values))

/-- Method `Interrogator.isin` over a whole local-backend column. -/
def isin (t : List (Option Int)) (values : List Int) : List (Option Bool) :=
  t.map (fun v => isinRow v values)

/-- Method `Interrogator.notin`, local backend
(src/pointblank/_interrogation.py lines 971-979): computes the `is_in`
column and then replaces it with its negation (`~`).  The method takes no
na_pass flag. -/
def notin (t : List (Option Int)) (values : List Int) : List (Option Bool) :=
  (isin t values).map knot

/-- Row semantics of `Interrogator.regex`, local backend
(src/pointblank/_interrogation.py lines 998-1010), with the backend
pattern matcher abstracted as `m : String → Bool`:
`pb_is_good_1 = col.is_null() & na_pass`,
`pb_is_good_2 = when(~col.is_null()).then(col.str.contains(pattern))
.otherwise(False)`, `pb_is_good_ = pb_is_good_1 | pb_is_good_2`. -/
def regexRow (v : Option String) (m : String → Bool) (naPass : Bool) : Option Bool :=
  let g1 := kand (some v.isNone) (some naPass)
  let g2 := whenThenOtherwise (knot (some v.isNone)) (v.map m) (some false)
  kor g1 g2

/-- Method `Interrogator.regex` over a whole local-backend column. -/
def regexCol (t : List (Option String)) (m : String → Bool) (naPass : Bool) :
    List (Option Bool) :=
  t.map (fun v => regexRow v m naPass)

end Interrogator

/-! ## Comparator (src/pointblank/comparison.py) -/

/-- A Python operand as passed to the `Comparator` dataclass: either a
scalar number or a list of numbers. -/
inductive PyOperand where
  | scalar (n : Int)
  | list (l : List Int)
deriving DecidableEq, Repr

/-- Method `Comparator._ensure_list` (src/pointblank/comparison.py lines 26-31):
a scalar is replicated to the requested length, a list of the wrong
length raises `ValueError`, a list of the right length is returned. -/
def ensureList (value : PyOperand) (length : Nat) (name : String) :
    Except String (List Int) :=
  match value with
  | .scalar n => .ok (List.replicate length n)
  | .list l =>
      if l.length = length then .ok l
      else .error (r"Length of `x` and `" ++ name ++ r"` must be the same.")

/-- The `Comparator` dataclass after `__post_init__` has run: `x` is a
list and each supplied operand has been broadcast to `x.length`. -/
structure Comparator where
  x : List Int
  compare : Option (List Int) := none
  low : Option (List Int) := none
  high : Option (List Int) := none
deriving DecidableEq, Repr

/-- Helper lifting `_ensure_list` over an optional operand (`__post_init__` only
calls it when the operand is not None). -/
def ensureOptList (value : Option PyOperand) (length : Nat) (name : String) :
    Except String (Option (List Int)) :=
  match value with
  | none => .ok none
  | some p => (ensureList p length name).map some

/-- Constructor semantics of `Comparator` (src/pointblank/comparison.py lines 13-24, the body of its post-init hook):
normalise `x` to a list, then broadcast or length-check `compare`, `low`
and `high`. -/
def mkComparator (x : PyOperand) (compare low high : Option PyOperand) :
    Except String Comparator := do
  let xl := match x with | .scalar n => [n] | .list l => l
  let c ← ensureOptList compare xl.length (r"compare")
  let lo ← ensureOptList low xl.length (r"low")
  let hi ← ensureOptList high xl.length (r"high")
  .ok { x := xl, compare := c, low := lo, high := hi }

/-- The Python 3 evaluation of `i < self.low` inside `Comparator.outside`
where `i` is a number and `self.low` is, after `__post_init__`, a list
(or None when no low bound was given): ordering a number against a list
or None raises `TypeError` unconditionally. -/
def pyLtIntList (_i : Int) (_l : Option (List Int)) : Except String Bool :=
  .error (r"TypeError")

/-- The Python 3 evaluation of `i > self.high` inside `Comparator.outside`:
same unconditional `TypeError`. -/
def pyGtIntList (_i : Int) (_l : Option (List Int)) : Except String Bool :=
  .error (r"TypeError")

/-- Method `Comparator.gt` (src/pointblank/comparison.py lines 33-34):
elementwise comparison of `x` with the broadcast `compare` list (`zip`
truncates; with a broadcast operand the lengths agree).  Calling it with
`compare=None` would raise in Python. -/
def Comparator.gt (c : Comparator) : Except String (List Bool) :=
  match c.compare with
  | some l => .ok ((c.x.zip l).map (fun p => decide (p.1 > p.2)))
  | none => .error (r"TypeError")

/-- Method `Comparator.outside` (src/pointblank/comparison.py lines 54-58):
`[i < self.low or i > self.high for i in self.x]`.  The comprehension
evaluates `i < self.low` with the whole broadcast list on the right, so
in Python the first element already raises `TypeError`; `or` would
short-circuit only after a successful left operand. -/
def Comparator.outside (c : Comparator) : Except String (List Bool) :=
  c.x.mapM (fun i => do
    let a ← pyLtIntList i c.low
    let b ← pyGtIntList i c.high
    pure (a || b))

/-! ## Thresholds

The `Thresholds` class and its `_threshold_result` method live in
`pointblank/thresholds.py`, which is not among the provided source files;
only the call site in `Validate.interrogate`
(src/pointblank/validate.py lines 797-804) is. -/

/-- Modelled from the spec: one severity level of the Threshold
Configuration of `pointblank/thresholds.py` (absent from src/).  Spec
section 3: "up to three independent levels (warn, stop, notify), each
expressed as either an absolute failing-unit count or a failing
fraction". -/
inductive ThresholdLevel where
  | unset
  | absolute (bound : Nat)
  | fraction (bound : ℚ)
deriving DecidableEq, Repr

/-- Modelled from the spec: `Thresholds._threshold_result` of
`pointblank/thresholds.py` (absent from src/).  Spec section 3: "a level
is exceeded when the observed failing count/fraction meets or exceeds the
configured bound; unset levels never trigger". -/
def thresholdResult (level : ThresholdLevel) (nFailed n : Nat) : Option Bool :=
  match level with
  | .unset => none
  | .absolute b => some (decide ((b : Nat) ≤ nFailed))
  | .fraction b => some (decide (b ≤ (nFailed : ℚ) / (n : ℚ)))

/-! ## Validation orchestration (src/pointblank/validate.py) -/

/-- The assertion kinds of the embedded plan model, carrying their
comparison payload (the source stores `assertion_type` as a string plus a
`values` payload; the dispatch through `TYPE_METHOD_MAP` and the step
executors of the absent `pointblank/_comparison.py` is modelled by
`runAssertion` below). -/
inductive Assertion where
  | gtA (value : Int) (naPass : Bool)
  | inSetA (values : List Int)
deriving DecidableEq, Repr

/-- Record `_ValidationInfo` (src/pointblank/validate.py lines 101-191): the
step declaration plus its result fields, every result field None until
interrogation sets it.  Timestamps are modelled by an abstract discrete
clock (`Nat`). -/
structure ValidationInfo where
  i : Option Nat := none
  assertionType : Assertion
  active : Bool := true
  thresholds : ThresholdLevel × ThresholdLevel × ThresholdLevel :=
    (.unset, .unset, .unset)
  allPassed : Option Bool := none
  n : Option Nat := none
  nPassed : Option Nat := none
  nFailed : Option Nat := none
  fPassed : Option ℚ := none
  fFailed : Option ℚ := none
  warn : Option Bool := none
  stop : Option Bool := none
  notify : Option Bool := none
  tblChecked : Option (List (Option Int) × List (Option Bool)) := none
  extract : Option (List (Option Int)) := none
  timeProcessed : Option Nat := none
  procDurationS : Option Nat := none
deriving DecidableEq, Repr

/-- Record `Validate` (src/pointblank/validate.py lines 194-244): the target
table (one column suffices for the embedded assertion kinds) and the
ordered list of validation steps. -/
structure Validate where
  data : List (Option Int)
  validationInfo : List ValidationInfo := []
deriving DecidableEq, Repr

/-- Method `Validate._add_validation` (src/pointblank/validate.py lines
1442-1456): the step index is `len(validation_info) + 1` at append
time. -/
def addValidation (v : Validate) (info : ValidationInfo) : Validate :=
  { v with validationInfo :=
      v.validationInfo ++ [{ info with i := some (v.validationInfo.length + 1) }] }

/-- Registration of a list of step declarations in order, as the chained
`col_vals_*` calls do. -/
def registerAll (v : Validate) (infos : List ValidationInfo) : Validate :=
  infos.foldl addValidation v

/-- Dispatch of a step to its interrogator, producing the `pb_is_good_`
column (the `COMPARE_ONE`/`COMPARE_SET` branches of
src/pointblank/validate.py lines 730-770, with the step executors of the
absent `pointblank/_comparison.py` modelled by the local-backend
`Interrogator` semantics above). -/
def runAssertion : Assertion → List (Option Int) → List (Option Bool)
  | .gtA value naPass, df => Interrogator.gtLit df value naPass
  | .inSetA values, df => Interrogator.isin df values

/-- One iteration of the `interrogate` loop
(src/pointblank/validate.py lines 666-826) on a single step.  The clock
argument is the next timestamp; every reading of the clock advances it.
An inactive step only records `proc_duration_s` and `time_processed`
(lines 670-675) and skips everything else.  For an active step the model
follows lines 728-826: `n` is the result-list length, `all_passed` is
Python `all` (a null test-unit result is falsy), `n_passed`/`n_failed`
count the True/False entries (a null entry counts in neither), the
fractions divide by `n` (`_convert_abs_count_to_fraction` of the absent
`pointblank/thresholds.py`, modelled from spec section 4.4 step 5 with
fraction 0 when n = 0), the three levels go through `thresholdResult`,
and the extract keeps the rows whose `pb_is_good_` is False (a null
entry fails the `== False` filter). -/
def interrogateStep (df : List (Option Int)) (clock : Nat) (val : ValidationInfo) :
    ValidationInfo × Nat :=
  let startTime := clock
  if val.active = false then
    let endTime := startTime + 1
    ({ val with
        procDurationS := some (endTime - startTime),
        timeProcessed := some endTime },
      endTime + 1)
  else
    let resultsList := runAssertion val.assertionType df
    let n := resultsList.length
    let nPassed := resultsList.countP (fun r => r = some true)
    let nFailed := resultsList.countP (fun r => r = some false)
    let fPassed : ℚ := if n = 0 then 0 else (nPassed : ℚ) / (n : ℚ)
    let fFailed : ℚ := if n = 0 then 0 else (nFailed : ℚ) / (n : ℚ)
    let endTime := startTime + 1
    ({ val with
        allPassed := some (resultsList.all (fun r => r = some true)),
        n := some n,
        nPassed := some nPassed,
        nFailed := some nFailed,
        fPassed := some fPassed,
        fFailed := some fFailed,
        warn := thresholdResult val.thresholds.1 nFailed n,
        stop := thresholdResult val.thresholds.2.1 nFailed n,
        notify := thresholdResult val.thresholds.2.2 nFailed n,
        tblChecked := some (df, resultsList),
        extract := some (((df.zip resultsList).filter
          (fun p => p.2 = some false)).map (fun p => p.1)),
        procDurationS := some (endTime - startTime),
        timeProcessed := some endTime },
      endTime + 1)

/-- The `for validation in self.validation_info` loop of `interrogate`,
threading the clock through the steps in registration order. -/
def interrogateLoop (df : List (Option Int)) (clock : Nat) :
    List ValidationInfo → List ValidationInfo × Nat
  | [] => ([], clock)
  | val :: rest =>
      let (upd, c) := interrogateStep df clock val
      let (rest', c') := interrogateLoop df c rest
      (upd :: rest', c')

/-- Method `Validate.interrogate` (src/pointblank/validate.py lines 652-830):
runs every step in order against the plan table and stores the updated
steps (`time_start` is clock 0, so the loop starts at 1). -/
def interrogate (v : Validate) : Validate :=
  { v with validationInfo := (interrogateLoop v.data 1 v.validationInfo).1 }

/-- Method `Validate._get_validation_dict` (src/pointblank/validate.py lines
1477-1504), the engine behind every post-run accessor (`n`, `n_passed`,
`n_failed`, `f_passed`, `f_failed`, `warn`, `stop`, `notify`,
`get_data_extracts`).  The Python `i` of type `int | list[int] | None`
is modelled as `Option (List Nat)` (an int becomes a singleton list, as
in the source).  The dictionary is modelled as the association list of
(step index, attribute value) pairs in step order. -/
def getValidationDict {α : Type} (v : Validate) (i : Option (List Nat))
    (attr : ValidationInfo → α) : List (Option Nat × α) :=
  match i with
  | none => v.validationInfo.map (fun val => (val.i, attr val))
  | some l =>
      (v.validationInfo.filter (fun val =>
        match val.i with
        | some k => decide (k ∈ l)
        | none => false)).map (fun val => (val.i, attr val))

/-! ## Claim theorems -/

/-- Claim C1 (code bug evidence): the claim says every `pb_is_good_` value of a
comparison interrogation on a local-backend table is exactly True or False,
never null.  On the polars local backend, `Interrogator.gt` against a literal
with `na_pass=False` leaves the null comparison result uncoerced, so a null
target value produces a null `pb_is_good_` entry; non-null rows and
`na_pass=True` behave as claimed. -/
theorem claim_C1_gt_null_is_good_null :
    Interrogator.gtLit [none] 5 false = [none] ∧
    Interrogator.gtLit [none] 5 true = [some true] ∧
    Interrogator.gtLit [some 7, some 3] 5 false = [some true, some false] := by
  refine ⟨rfl, rfl, rfl⟩

/-- Claim C2 (code bug evidence): on the spec vectors A=[1,null,3,null],
B=[1,2,null,null] the four-way `ne` branch produces the claimed outputs for
both na_pass settings, but the general rule of case (d) fails: with
na_pass=True the polars path rebuilds `pb_is_good_3` as
`when(either null).then(True).otherwise(False)`, so the row (2, 5) - both
sides non-null and distinct - comes out False although the claim requires
the `!=` result True. -/
theorem claim_C2_ne_case_d :
    Interrogator.neCol
      [(some 1, some 1), (none, some 2), (some 3, none), (none, none)] false
      = [some false, some false, some false, some false] ∧
    Interrogator.neCol
      [(some 1, some 1), (none, some 2), (some 3, none), (none, none)] true
      = [some false, some true, some true, some true] ∧
    Interrogator.neCol
      [(some 1, some 1), (none, some 2), (some 3, none), (some 2, some 5)] true
      = [some false, some true, some true, some false] := by
  refine ⟨rfl, rfl, rfl⟩

/-- Helper for claim C3: a null target value with na_pass=True is good under
`between` with literal bounds, whatever the bounds and inclusivity. -/
theorem betweenLitRow_none (low high : Int) (incLow incHigh : Bool) :
    Interrogator.betweenLitRow none low high incLow incHigh true = some true := by
  cases incLow <;> cases incHigh <;> rfl

/-- Helper for claim C3: a null target value with na_pass=True is good under
`outside` with literal bounds, whatever the bounds and inclusivity. -/
theorem outsideLitRow_none (low high : Int) (incLow incHigh : Bool) :
    Interrogator.outsideLitRow none low high incLow incHigh true = some true := by
  cases incLow <;> cases incHigh <;> rfl

/-- Claim C3: on a local-backend table with a null target value and
na_pass=True against literal bounds, `between` and `outside` both mark that
row good, so `outside` is not the pointwise negation of `between` in the
presence of nulls. -/
theorem claim_C3_between_outside_null_row (t : List (Option Int)) (low high : Int)
    (incLow incHigh : Bool) (i : Nat) (h : t.get? i = some none) :
    (Interrogator.betweenLit t low high incLow incHigh true).get? i
      = some (some true) ∧
    (Interrogator.outsideLit t low high incLow incHigh true).get? i
      = some (some true) := by
  constructor
  · rw [Interrogator.betweenLit, List.get?_map, h]
    simp [betweenLitRow_none]
  · rw [Interrogator.outsideLit, List.get?_map, h]
    simp [outsideLitRow_none]

/-- Witness for claim C3 at the concrete table [null] with bounds [2, 8]. -/
theorem claim_C3_witness :
    ([none] : List (Option Int)).get? 0 = some none ∧
    (Interrogator.betweenLit [none] 2 8 true true true).get? 0 = some (some true) ∧
    (Interrogator.outsideLit [none] 2 8 true true true).get? 0 = some (some true) :=
  ⟨rfl, (claim_C3_between_outside_null_row [none] 2 8 true true 0 rfl).1,
    (claim_C3_between_outside_null_row [none] 2 8 true true 0 rfl).2⟩

/-- Claim C4 (code bug evidence): `Comparator.__post_init__` broadcasts the
scalar bounds of [1,2,5] to the lists [2,2,2] and [8,8,8], but
`Comparator.outside` then evaluates `i < self.low` with the whole list on the
right, which raises TypeError in Python instead of returning the claimed
elementwise containment booleans. -/
theorem claim_C4_outside_type_error :
    mkComparator (.list [1, 2, 5]) none (some (.scalar 2)) (some (.scalar 8))
      = .ok { x := [1, 2, 5], low := some [2, 2, 2], high := some [8, 8, 8] } ∧
    Comparator.outside { x := [1, 2, 5], low := some [2, 2, 2], high := some [8, 8, 8] }
      = .error (r"TypeError") := by
  refine ⟨rfl, rfl⟩

/-- Claim C5 (thresholds modelled from the spec, the module is absent from
src/): with n=100 test units and n_failed=5, a warn level set as fraction
0.04 is exceeded (0.05 >= 0.04) while a warn level set as absolute count 10
is not; in general an absolute level triggers iff the failing count meets or
exceeds the bound, a fraction level triggers iff the failing fraction meets
or exceeds the bound, and an unset level never triggers. -/
theorem claim_C5_threshold_evaluation :
    thresholdResult (.fraction (4/100)) 5 100 = some true ∧
    thresholdResult (.absolute 10) 5 100 = some false ∧
    (∀ (b nFailed n : Nat), thresholdResult (.absolute b) nFailed n
      = some (decide (b ≤ nFailed))) ∧
    (∀ (b : ℚ) (nFailed n : Nat), thresholdResult (.fraction b) nFailed n
      = some (decide (b ≤ (nFailed : ℚ) / (n : ℚ)))) ∧
    (∀ (nFailed n : Nat), thresholdResult .unset nFailed n = none) := by
  refine ⟨?_, by decide, fun b nf n => rfl, fun b nf n => rfl, fun nf n => rfl⟩
  show some (decide ((4:ℚ)/100 ≤ ((5:Nat) : ℚ) / ((100:Nat) : ℚ))) = some true
  norm_num

/-- Helper for claim C7: the regex row value on a null target is na_pass,
for any pattern matcher. -/
theorem regexRow_none (m : String → Bool) (naPass : Bool) :
    Interrogator.regexRow none m naPass = some naPass := by
  cases naPass <;> rfl

/-- Claim C7: the regex interrogation on a local-backend table maps a null
target value to na_pass, and the value produced for a null row does not
depend on the pattern matcher - the match is applied only to non-null
values. -/
theorem claim_C7_regex_null_na_pass (t : List (Option String))
    (m mAlt : String → Bool) (naPass : Bool) (i : Nat) (h : t.get? i = some none) :
    (Interrogator.regexCol t m naPass).get? i = some (some naPass) ∧
    (Interrogator.regexCol t m naPass).get? i
      = (Interrogator.regexCol t mAlt naPass).get? i := by
  constructor
  · rw [Interrogator.regexCol, List.get?_map, h]
    simp [regexRow_none]
  · rw [Interrogator.regexCol, List.get?_map, Interrogator.regexCol, List.get?_map, h]
    simp [regexRow_none]

/-- Witness for claim C7 on the table [null] with two matchers that disagree
everywhere. -/
theorem claim_C7_witness :
    (Interrogator.regexCol [none] (fun _ => false) true).get? 0 = some (some true) ∧
    (Interrogator.regexCol [none] (fun _ => false) true).get? 0
      = (Interrogator.regexCol [none] (fun _ => true) true).get? 0 :=
  ⟨(claim_C7_regex_null_na_pass [none] (fun _ => false) (fun _ => true) true 0 rfl).1,
    (claim_C7_regex_null_na_pass [none] (fun _ => false) (fun _ => true) true 0 rfl).2⟩

/-- Claim C8: constructing a Comparator with a list `x` and a scalar operand
broadcasts the scalar to length `x.length`; a list operand of a different
length fails with the length-mismatch ValueError; a list operand of exactly
the right length is accepted unchanged. -/
theorem claim_C8_comparator_broadcast :
    (∀ (xs : List Int) (c : Int),
      mkComparator (.list xs) (some (.scalar c)) none none
        = .ok { x := xs, compare := some (List.replicate xs.length c) }) ∧
    (∀ (xs l : List Int), l.length ≠ xs.length →
      mkComparator (.list xs) (some (.list l)) none none
        = .error (r"Length of `x` and `compare` must be the same.")) ∧
    (∀ (xs l : List Int), l.length = xs.length →
      mkComparator (.list xs) (some (.list l)) none none
        = .ok { x := xs, compare := some l }) := by
  refine ⟨fun xs c => rfl, fun xs l h => ?_, fun xs l h => ?_⟩
  · simp [mkComparator, ensureOptList, ensureList, h, Except.map, Bind.bind, Except.bind]
  · simp [mkComparator, ensureOptList, ensureList, h, Except.map, Bind.bind, Except.bind]

/-- Witness for claim C8 at x=[3,4] with a scalar 7, a short list [1] and an
exact-length list [9,9]. -/
theorem claim_C8_witness :
    (mkComparator (.list [3, 4]) (some (.scalar 7)) none none
      = .ok { x := [3, 4], compare := some [7, 7] }) ∧
    (mkComparator (.list [3, 4]) (some (.list [1])) none none
      = .error (r"Length of `x` and `compare` must be the same.")) ∧
    (mkComparator (.list [3, 4]) (some (.list [9, 9])) none none
      = .ok { x := [3, 4], compare := some [9, 9] }) :=
  ⟨claim_C8_comparator_broadcast.1 [3, 4] 7,
    claim_C8_comparator_broadcast.2.1 [3, 4] [1] (by decide),
    claim_C8_comparator_broadcast.2.2 [3, 4] [9, 9] (by decide)⟩

/-- Claim C9: on the local backend `notin` is exactly the elementwise
(Kleene) negation of `isin` on the same inputs; neither takes the na_pass
flag, and a null row yields a null membership result rather than the na_pass
treatment (illustrated on a concrete mixed column). -/
theorem claim_C9_notin_negation :
    (∀ (t : List (Option Int)) (values : List Int),
      Interrogator.notin t values = (Interrogator.isin t values).map knot) ∧
    Interrogator.isin [some 1, some 3, none] [1, 2]
      = [some true, some false, none] ∧
    Interrogator.notin [some 1, some 3, none] [1, 2]
      = [some false, some true, none] := by
  exact ⟨fun t values => rfl, by decide, by decide⟩

/-- Helper: the step at position j after the interrogate loop is the loop
body applied to the registered step at position j, at some clock value. -/
theorem interrogateLoop_get? (df : List (Option Int)) :
    ∀ (steps : List ValidationInfo) (c j : Nat),
      ∃ c', ((interrogateLoop df c steps).1).get? j
        = (steps.get? j).map (fun val => (interrogateStep df c' val).1) := by
  intro steps
  induction steps with
  | nil => exact fun c j => ⟨c, by simp [interrogateLoop]⟩
  | cons hd tl ih =>
      intro c j
      cases j with
      | zero => exact ⟨c, by simp [interrogateLoop]⟩
      | succ j =>
          obtain ⟨c', hc⟩ := ih (interrogateStep df c hd).2 j
          exact ⟨c', by simpa [interrogateLoop] using hc⟩

/-- Helper: the effect of the interrogate loop body on an inactive step. -/
theorem interrogateStep_inactive (df : List (Option Int)) (c : Nat)
    (val : ValidationInfo) (hact : val.active = false) :
    (interrogateStep df c val).1
      = { val with procDurationS := some 1, timeProcessed := some (c + 1) } := by
  simp [interrogateStep, hact]

/-- Claim C6: a validation step registered with active=False (so with all
result fields still at their None defaults) receives a processing timestamp
and a duration from interrogate, while every other result field stays None,
and the index-keyed accessor dictionaries report None for it. -/
theorem claim_C6_inactive_step (v : Validate) (j : Nat) (val : ValidationInfo)
    (hget : v.validationInfo.get? j = some val)
    (hact : val.active = false)
    (h1 : val.allPassed = none) (h2 : val.n = none) (h3 : val.nPassed = none)
    (h4 : val.nFailed = none) (h5 : val.fPassed = none) (h6 : val.fFailed = none)
    (h7 : val.warn = none) (h8 : val.stop = none) (h9 : val.notify = none)
    (h10 : val.tblChecked = none) (h11 : val.extract = none) :
    ∃ val', (interrogate v).validationInfo.get? j = some val' ∧
      val'.timeProcessed.isSome = true ∧ val'.procDurationS.isSome = true ∧
      val'.allPassed = none ∧ val'.n = none ∧ val'.nPassed = none ∧
      val'.nFailed = none ∧ val'.fPassed = none ∧ val'.fFailed = none ∧
      val'.warn = none ∧ val'.stop = none ∧ val'.notify = none ∧
      val'.tblChecked = none ∧ val'.extract = none ∧
      (val'.i, (none : Option Nat)) ∈
        getValidationDict (interrogate v) none (fun s => s.n) ∧
      (val'.i, (none : Option Bool)) ∈
        getValidationDict (interrogate v) none (fun s => s.warn) := by
  obtain ⟨c', hc⟩ := interrogateLoop_get? v.data v.validationInfo 1 j
  have hgetI : (interrogate v).validationInfo.get? j
      = some ((interrogateStep v.data c' val).1) := by
    show ((interrogateLoop v.data 1 v.validationInfo).1).get? j = _
    rw [hc, hget]
    rfl
  rw [interrogateStep_inactive v.data c' val hact] at hgetI
  have hmem := List.get?_mem hgetI
  refine ⟨_, hgetI, by simp, by simp, by simp [h1], by simp [h2], by simp [h3],
    by simp [h4], by simp [h5], by simp [h6], by simp [h7], by simp [h8],
    by simp [h9], by simp [h10], by simp [h11], ?_, ?_⟩
  · have := List.mem_map_of_mem (fun s : ValidationInfo => (s.i, s.n)) hmem
    simpa [getValidationDict, h2] using this
  · have := List.mem_map_of_mem (fun s : ValidationInfo => (s.i, s.warn)) hmem
    simpa [getValidationDict, h7] using this

/-- Witness for claim C6: a one-step plan whose single registered step is
inactive. -/
theorem claim_C6_witness :
    ∃ val',
      (interrogate (addValidation { data := [some 1] }
        { assertionType := Assertion.gtA 0 false, active := false })).validationInfo.get? 0
        = some val' ∧
      val'.timeProcessed.isSome = true ∧ val'.procDurationS.isSome = true ∧
      val'.allPassed = none ∧ val'.n = none ∧ val'.nPassed = none ∧
      val'.nFailed = none ∧ val'.fPassed = none ∧ val'.fFailed = none ∧
      val'.warn = none ∧ val'.stop = none ∧ val'.notify = none ∧
      val'.tblChecked = none ∧ val'.extract = none ∧
      (val'.i, (none : Option Nat)) ∈
        getValidationDict (interrogate (addValidation { data := [some 1] }
          { assertionType := Assertion.gtA 0 false, active := false })) none
          (fun s => s.n) ∧
      (val'.i, (none : Option Bool)) ∈
        getValidationDict (interrogate (addValidation { data := [some 1] }
          { assertionType := Assertion.gtA 0 false, active := false })) none
          (fun s => s.warn) :=
  claim_C6_inactive_step _ 0
    { i := some 1, assertionType := Assertion.gtA 0 false, active := false }
    rfl rfl rfl rfl rfl rfl rfl rfl rfl rfl rfl rfl rfl

/-- Helper for claim C10: registration assigns the indices
len+1, len+2, ... in order. -/
theorem registerAll_indices (infos : List ValidationInfo) :
    ∀ (v : Validate),
      ((registerAll v infos).validationInfo).map (fun val => val.i)
        = v.validationInfo.map (fun val => val.i)
          ++ (List.range infos.length).map
              (fun k => some (v.validationInfo.length + k + 1)) := by
  induction infos with
  | nil => intro v; simp [registerAll]
  | cons hd tl ih =>
      intro v
      rw [show registerAll v (hd :: tl) = registerAll (addValidation v hd) tl from rfl,
        ih (addValidation v hd)]
      simp only [addValidation, List.map_append, List.map_cons, List.map_nil,
        List.length_append, List.length_cons, List.length_nil,
        List.range_succ_eq_map, List.map_map, List.append_assoc, List.cons_append,
        List.nil_append, Nat.add_zero]
      congr 1
      congr 1
      apply List.map_congr_left
      intro k _
      simp only [Function.comp_apply, Option.some.injEq]
      omega

/-- Claim C10: every index-keyed accessor goes through
`_get_validation_dict`; with an index list matching no registered step it
returns the empty dictionary rather than raising, and with None it returns
one entry per registered step keyed by the 1-based registration index. -/
theorem claim_C10_accessor_dict {α : Type} (attr : ValidationInfo → α) :
    (∀ (v : Validate) (l : List Nat),
      (∀ val ∈ v.validationInfo, ∀ k ∈ l, val.i ≠ some k) →
      getValidationDict v (some l) attr = []) ∧
    (∀ (df : List (Option Int)) (infos : List ValidationInfo),
      (getValidationDict (registerAll { data := df } infos) none attr).map Prod.fst
        = (List.range infos.length).map (fun k => some (k + 1))) := by
  constructor
  · intro v l h
    have hfil : (v.validationInfo.filter (fun val =>
        match val.i with
        | some k => decide (k ∈ l)
        | none => false)) = [] := by
      rw [List.filter_eq_nil]
      intro val hval
      cases hi : val.i with
      | none => simp
      | some k =>
          simp only [decide_eq_true_eq]
          intro hk
          exact h val hval k hk hi
    simp only [getValidationDict, hfil, List.map_nil]
  · intro df infos
    have h := registerAll_indices infos { data := df }
    simp only [getValidationDict, List.map_map]
    have hcomp : (Prod.fst ∘ fun val : ValidationInfo => (val.i, attr val))
        = fun val => val.i := rfl
    rw [hcomp, h]
    simp

/-- Witness for claim C10: a two-step plan, queried with the unmatched index
5 and with None. -/
theorem claim_C10_witness :
    getValidationDict (registerAll { data := ([] : List (Option Int)) }
        [{ assertionType := Assertion.inSetA [] },
         { assertionType := Assertion.gtA 0 false }]) (some [5]) (fun s => s.n) = [] ∧
    (getValidationDict (registerAll { data := ([] : List (Option Int)) }
        [{ assertionType := Assertion.inSetA [] },
         { assertionType := Assertion.gtA 0 false }]) none (fun s => s.n)).map Prod.fst
      = [some 1, some 2] :=
  ⟨(claim_C10_accessor_dict (fun s => s.n)).1 _ [5] (by decide),
    (claim_C10_accessor_dict (fun s => s.n)).2 [] _⟩
